import Mathlib

/-!
Shallow embedding of the GPT-Vencord plugin (src/native.ts).

The plugin's logic is modelled as pure Lean functions:
* the HTTP layer is abstracted as an `HttpResponse` value handed to the
  functions that would `fetch`;
* JavaScript numbers are modelled as `ℕ` (token counts, statuses) and `ℚ`
  (cost arithmetic);
* side effects (toasts, console logging, `sendBotMessage`,
  `insertTextIntoChatInputBox`, the outgoing request) are collected in
  explicit outcome records.

A second, `Raw`-suffixed family of definitions models the same functions on
dynamically-typed inputs whose missing (`undefined`) fields raise JavaScript
`TypeError`s, to reason about the `try/catch` fallbacks.
-/

namespace GPTVencord

/-- Author record of a chat message (`author` in the `Message` interface,
src/native.ts lines 9-12); `bot` is optional. -/
structure Author where
  username : String
  bot : Option Bool
deriving Repr, DecidableEq

/-- The `Message` interface (src/native.ts lines 7-14). -/
structure Message where
  content : String
  author : Author
  role : String
deriving Repr, DecidableEq

/-- A message as it appears in the serialized request body.  Conversation
messages are pushed wholesale (so they keep their `author` field), while the
system message pushed at src/native.ts lines 46-49 is a bare
`{role, content}` object with no `author`. -/
structure BodyMessage where
  content : String
  author : Option Author
  role : String
deriving Repr, DecidableEq

/-- A conversation `Message` spread into the request body keeps all fields. -/
def Message.toBody (m : Message) : BodyMessage :=
  { content := m.content, author := some m.author, role := m.role }

/-- The system message object pushed when `systemPrompt` is truthy
(src/native.ts lines 46-49): only `role` and `content`, no `author`. -/
def systemMessage (systemPrompt : String) : BodyMessage :=
  { role := "system", content := systemPrompt, author := none }

/-- The `allMessages` array of `generateResponse` (src/native.ts lines 43-53):
the system message is pushed first when `systemPrompt` is a non-empty string
(JavaScript truthiness), then all conversation messages are appended. -/
def buildAllMessages (messages : List Message) (systemPrompt : String) : List BodyMessage :=
  (if systemPrompt ≠ "" then [systemMessage systemPrompt] else []) ++ messages.map Message.toBody

/-- The JSON body of the POST request (src/native.ts lines 63-69). -/
structure RequestBody where
  model : String
  messages : List BodyMessage
  temperature : ℚ
  max_tokens : ℕ
  stream : Bool
deriving Repr, DecidableEq

/-- The request body built by `generateResponse` (src/native.ts lines 63-69). -/
def buildRequestBody (model : String) (messages : List Message) (systemPrompt : String) :
    RequestBody :=
  { model := model
    messages := buildAllMessages messages systemPrompt
    temperature := 0.7
    max_tokens := 1024
    stream := false }

/-- `usage` field of the `OpenRouterResponse` interface (src/native.ts 27-31). -/
structure Usage where
  prompt_tokens : ℕ
  completion_tokens : ℕ
  total_tokens : ℕ
deriving Repr, DecidableEq

/-- `choices[i].message` of the `OpenRouterResponse` interface. -/
structure ChoiceMessage where
  content : String
  role : String
deriving Repr, DecidableEq

/-- One element of `choices` in the `OpenRouterResponse` interface. -/
structure Choice where
  message : ChoiceMessage
  finish_reason : String
  index : ℕ
deriving Repr, DecidableEq

/-- The `OpenRouterResponse` interface (src/native.ts lines 16-32). -/
structure OpenRouterResponse where
  id : String
  choices : List Choice
  model : String
  usage : Usage
deriving Repr, DecidableEq

/-- Abstraction of the `fetch` result: HTTP status, the text body (read on the
error path), and the parsed JSON body (`none` when `response.json()` would
fail).  `ok` is the fetch-API property: status in the 200-299 range. -/
structure HttpResponse where
  status : ℕ
  bodyText : String
  json : Option OpenRouterResponse
deriving Repr, DecidableEq

/-- `response.ok` of the fetch API: success range 200-299. -/
def HttpResponse.ok (r : HttpResponse) : Bool :=
  200 ≤ r.status && r.status < 300

/-- Errors thrown inside `generateResponse`: the `Error` built at
src/native.ts line 74 carrying status and body text, or a JSON parse
failure from `response.json()`. -/
inductive GenError where
  | apiError (status : ℕ) (body : String)
  | malformed
deriving Repr, DecidableEq

/-- Message text of a `GenError`; the `apiError` case mirrors the template
literal at src/native.ts line 74. -/
def errorMessage : GenError → String
  | .apiError status body => "OpenRouter API error (" ++ toString status ++ "): " ++ body
  | .malformed => "Unexpected end of JSON input"

instance {ε α : Type} [DecidableEq ε] [DecidableEq α] : DecidableEq (Except ε α) := fun x y =>
  match x, y with
  | .ok a, .ok b => if h : a = b then .isTrue (by rw [h]) else .isFalse (by simp [h])
  | .ok _, .error _ => .isFalse (by simp)
  | .error _, .ok _ => .isFalse (by simp)
  | .error a, .error b => if h : a = b then .isTrue (by rw [h]) else .isFalse (by simp [h])

/-- Result of one call to `generateResponse`: the request it issued, the value
returned or error rethrown, and what its own `catch` block wrote to the
console (src/native.ts lines 79-82: `console.error` runs unconditionally
before the rethrow). -/
structure GenerateResult where
  request : RequestBody
  outcome : Except GenError OpenRouterResponse
  logs : List String
deriving Repr, DecidableEq

/-- `generateResponse` (src/native.ts lines 34-83), with the network response
passed in explicitly.  On a non-ok status it throws the error built at line
74; its own `catch` logs `"Error in generateResponse:"` with the error
unconditionally and rethrows. -/
def generateResponse (apiKey model : String) (messages : List Message)
    (systemPrompt : String) (resp : HttpResponse) : GenerateResult :=
  let _ := apiKey
  let request := buildRequestBody model messages systemPrompt
  if resp.ok then
    match resp.json with
    | some result => { request := request, outcome := .ok result, logs := [] }
    | none =>
        let e := GenError.malformed
        { request := request, outcome := .error e
          logs := ["Error in generateResponse: " ++ errorMessage e] }
  else
    let e := GenError.apiError resp.status resp.bodyText
    { request := request, outcome := .error e
      logs := ["Error in generateResponse: " ++ errorMessage e] }

/-- `estimateTokens` (src/native.ts lines 85-102) on well-typed input: sums
the content lengths with a fold and takes `Math.ceil(totalChars / 4)`, which
on a natural number is `(totalChars + 3) / 4`. -/
def estimateTokens (messages : List Message) : ℕ :=
  let totalChars := messages.foldl (fun acc message => acc + message.content.length) 0
  (totalChars + 3) / 4

/-- `Number.prototype.toFixed(6)` on a non-negative exact rational: round to
the nearest multiple of 10⁻⁶, half away from zero, and render with exactly
six fractional digits.  The source applies `toFixed` to an IEEE-754 float64,
whose accumulated rounding can land on the other side of a half-way point,
so this exact-rational rendering diverges from the program at such
boundaries (e.g. usage `{prompt 1, completion 27}`: float64 prints
`0.000005`, the exact value 0.0000055 rounds here to `0.000006`).  No claim
theorem depends on these digits. -/
def toFixed6 (q : ℚ) : String :=
  let n : ℕ := (⌊q * 1000000 + 1 / 2⌋).toNat
  let intPart := n / 1000000
  let fracPart := n % 1000000
  let fracStr := toString fracPart
  toString intPart ++ "." ++ String.mk (List.replicate (6 - fracStr.length) '0') ++ fracStr

/-- `formatDebugInfo` (src/native.ts lines 104-126) on well-typed input.
The cost arithmetic of lines 112-114 runs in IEEE-754 float64; here it is
idealized as exact rational arithmetic (see `toFixed6`), which matches the
program except at `toFixed` rounding boundaries.  The flow theorems use this
definition only where its rendered digits are irrelevant. -/
def formatDebugInfo (response : OpenRouterResponse) : String :=
  let model := response.model
  let usage := response.usage
  let promptCost := (usage.prompt_tokens : ℚ) / 1000 * 0.0001
  let completionCost := (usage.completion_tokens : ℚ) / 1000 * 0.0002
  let totalCost := promptCost + completionCost
  "**Debug Info:**\n- Model: " ++ model ++
    "\n- Prompt Tokens: " ++ toString usage.prompt_tokens ++
    "\n- Completion Tokens: " ++ toString usage.completion_tokens ++
    "\n- Total Tokens: " ++ toString usage.total_tokens ++
    "\n- Estimated Cost: $" ++ toFixed6 totalCost ++ " (Free)"

/-- A message as held in the host's `MessageStore` cache; `getChatContext`
reads only `content`, `author.username` and `author.bot`. -/
structure CachedMessage where
  content : String
  author : Author
deriving Repr, DecidableEq

/-- JavaScript `Array.prototype.slice(-n)`: for `n > 0` the last `n` elements
(all of them when `n ≥ length`); `slice(-0)` is `slice(0)`, the whole array. -/
def sliceLast (l : List α) (n : ℕ) : List α :=
  if n = 0 then l else l.drop (l.length - n)

/-- `getChatContext` (src/native.ts lines 292-313) on well-typed input: the
cache (`none` when `MessageStore.getMessages(channelId)?.toArray()` is
nullish) defaults to `[]`, the last `contextLength` messages are kept, and
each is mapped to a `Message` whose role is fixed to `"user"`. -/
def getChatContext (cache : Option (List CachedMessage)) (contextLength : ℕ) : List Message :=
  let messages := cache.getD []
  let contextMessages := sliceLast messages contextLength
  contextMessages.map fun msg =>
    { content := msg.content
      author := { username := msg.author.username, bot := msg.author.bot }
      role := "user" }

/-- The plugin settings read by the response flow (src/native.ts 175-238). -/
structure Settings where
  apiKey : String
  model : String
  contextLength : ℕ
  systemInstructions : String
  chatScope : String
  outputMode : String
  showDebugInfo : Bool
  showTokenCount : Bool
  logErrors : Bool
deriving Repr, DecidableEq

/-- Toast kinds used by the flow (`Toasts.Type.*`). -/
inductive ToastType where
  | info
  | success
  | failure
deriving Repr, DecidableEq

/-- One `showToast` call. -/
structure Toast where
  text : String
  type : ToastType
deriving Repr, DecidableEq

/-- Observable outcome of one `generateAIResponse` call: the returned value
(`none` models `null`), every toast shown, every console line written, and
the request sent to the remote API (`none` when no network call was made). -/
structure FlowOutcome where
  result : Option (String × OpenRouterResponse)
  toasts : List Toast
  logs : List String
  sentRequest : Option RequestBody
deriving Repr, DecidableEq

/-- `generateAIResponse` (src/native.ts lines 316-369), with the channel's
message cache and the network response passed in explicitly. -/
def generateAIResponse (s : Settings) (cache : Option (List CachedMessage))
    (resp : HttpResponse) : FlowOutcome :=
  if s.apiKey = "" then
    { result := none
      toasts := [⟨"Please set your OpenRouter API key in the plugin settings", .failure⟩]
      logs := [], sentRequest := none }
  else
    let context := getChatContext cache s.contextLength
    if context.length = 0 then
      { result := none
        toasts := [⟨"No messages found to generate context", .failure⟩]
        logs := [], sentRequest := none }
    else
      let loading : Toast := ⟨"Generating AI response...", .info⟩
      let gen := generateResponse s.apiKey s.model context s.systemInstructions resp
      match gen.outcome with
      | .error e =>
          { result := none
            toasts := [loading, ⟨"Error generating AI response", .failure⟩]
            logs := gen.logs ++
              (if s.logErrors then ["Error generating AI response: " ++ errorMessage e] else [])
            sentRequest := some gen.request }
      | .ok response =>
          match response.choices with
          | [] =>
              { result := none
                toasts := [loading, ⟨"Failed to generate response", .failure⟩]
                logs := gen.logs
                sentRequest := some gen.request }
          | choice :: _ =>
              let generatedText := choice.message.content
              let debugLogs :=
                if s.showDebugInfo || s.showTokenCount then [formatDebugInfo response] else []
              let tokenToasts :=
                if s.showDebugInfo || s.showTokenCount then
                  if s.showTokenCount then
                    [Toast.mk
                      ("Generated response (" ++ toString response.usage.total_tokens ++ " tokens)")
                      .success]
                  else []
                else []
              { result := some (generatedText, response)
                toasts := [loading] ++ tokenToasts
                logs := gen.logs ++ debugLogs
                sentRequest := some gen.request }

/-- The scope gate shared verbatim by the `/respond` command handler
(src/native.ts line 392) and `renderMessagePopoverButton` (line 427):
blocked when the channel is a guild channel and scope is `"dms"`, or not a
guild channel and scope is `"channels"`. -/
def scopeBlocked (s : Settings) (isGuildChannel : Bool) : Bool :=
  (isGuildChannel && s.chatScope == "dms") || (!isGuildChannel && s.chatScope == "channels")

/-- Observable outcome of the `/respond` command handler: `sendBotMessage`
contents, text inserted into the compose box, and the flow run (`none` when
the scope gate short-circuited before `generateAIResponse`). -/
structure ExecOutcome where
  botMessages : List String
  insertedText : List String
  flowRun : Option FlowOutcome
deriving Repr, DecidableEq

/-- The `/respond` command's `execute` handler (src/native.ts lines 386-417):
scope gate first, then the flow, then output routing by `outputMode`. -/
def execute (s : Settings) (isGuildChannel : Bool) (cache : Option (List CachedMessage))
    (resp : HttpResponse) : ExecOutcome :=
  if scopeBlocked s isGuildChannel then
    { botMessages :=
        ["AI responses are not enabled for this type of channel. Check your plugin settings."]
      insertedText := [], flowRun := none }
  else
    let fl := generateAIResponse s cache resp
    match fl.result with
    | none => { botMessages := [], insertedText := [], flowRun := some fl }
    | some (text, response) =>
        if s.outputMode == "ephemeral" then
          { botMessages :=
              [text ++ (if s.showDebugInfo then "\n\n" ++ formatDebugInfo response else "")]
            insertedText := [], flowRun := some fl }
        else
          { botMessages := [], insertedText := [text], flowRun := some fl }

/-- `renderMessagePopoverButton` (src/native.ts lines 422-451): `true` when a
button is returned, `false` when the scope gate returns `null`. -/
def renderMessagePopoverButton (s : Settings) (isGuildChannel : Bool) : Bool :=
  !(scopeBlocked s isGuildChannel)

/-! ### Dynamically-typed ("raw") model

TypeScript types are erased at runtime; a caller can hand these functions
objects with missing fields.  `Option` marks a field that may be
`undefined`; reading a property of `undefined` raises a `TypeError`, which
each function's `try/catch` converts into its fallback value. -/

/-- A JavaScript exception raised while the function body runs. -/
inductive JsError where
  | typeError (msg : String)
deriving Repr, DecidableEq

/-- An author object whose fields may be `undefined`. -/
structure RawAuthor where
  username : Option String
  bot : Option Bool
deriving Repr, DecidableEq

/-- A message argument whose fields may be `undefined`. -/
structure RawMessage where
  content : Option String
  author : Option RawAuthor
  role : Option String
deriving Repr, DecidableEq

/-- Body of `estimateTokens` (src/native.ts lines 90-97) on raw input:
`message.content.length` raises a `TypeError` when `content` is
`undefined`. -/
def estimateTokensRawBody (messages : List RawMessage) : Except JsError ℕ := do
  let totalChars ← messages.foldlM
    (fun acc message =>
      match message.content with
      | none =>
          Except.error
            (JsError.typeError "Cannot read properties of undefined (reading 'length')")
      | some content => Except.ok (acc + content.length))
    0
  return (totalChars + 3) / 4

/-- `estimateTokens` on raw input: the `catch` (src/native.ts lines 98-101)
returns `0` on any exception. -/
def estimateTokensRaw (messages : List RawMessage) : ℕ :=
  match estimateTokensRawBody messages with
  | .ok n => n
  | .error _ => 0

/-- A usage object whose presence is uncertain. -/
structure RawUsage where
  prompt_tokens : ℕ
  completion_tokens : ℕ
  total_tokens : ℕ
deriving Repr, DecidableEq

/-- A response argument whose fields may be `undefined`. -/
structure RawResponseData where
  model : Option String
  usage : Option RawUsage
deriving Repr, DecidableEq

/-- Body of `formatDebugInfo` (src/native.ts lines 108-121) on raw input:
destructuring `undefined` raises, as does `usage.prompt_tokens` when `usage`
is `undefined`; an `undefined` model interpolates as `"undefined"`.  The ok
branch shares `formatDebugInfo`'s exact-rational idealization of the float64
cost arithmetic; the totality claim proved about it does not depend on the
rendered digits, only on where the body raises. -/
def formatDebugInfoRawBody : Option RawResponseData → Except JsError String
  | none =>
      Except.error
        (JsError.typeError "Cannot destructure property of undefined")
  | some response =>
      match response.usage with
      | none =>
          Except.error
            (JsError.typeError "Cannot read properties of undefined (reading 'prompt_tokens')")
      | some usage =>
          let model := match response.model with
            | some m => m
            | none => "undefined"
          let promptCost := (usage.prompt_tokens : ℚ) / 1000 * 0.0001
          let completionCost := (usage.completion_tokens : ℚ) / 1000 * 0.0002
          let totalCost := promptCost + completionCost
          Except.ok ("**Debug Info:**\n- Model: " ++ model ++
            "\n- Prompt Tokens: " ++ toString usage.prompt_tokens ++
            "\n- Completion Tokens: " ++ toString usage.completion_tokens ++
            "\n- Total Tokens: " ++ toString usage.total_tokens ++
            "\n- Estimated Cost: $" ++ toFixed6 totalCost ++ " (Free)")

/-- `formatDebugInfo` on raw input: the `catch` (src/native.ts lines 122-125)
returns the fixed string on any exception. -/
def formatDebugInfoRaw (response : Option RawResponseData) : String :=
  match formatDebugInfoRawBody response with
  | .ok s => s
  | .error _ => "Error generating debug info"

/-- A cached message whose fields may be `undefined`. -/
structure RawCachedMessage where
  content : Option String
  author : Option RawAuthor
deriving Repr, DecidableEq

/-- A context message built from raw input: `content` may be `undefined`,
`role` is the literal `"user"`. -/
structure RawContextMessage where
  content : Option String
  author : RawAuthor
  role : String
deriving Repr, DecidableEq

/-- Body of `getChatContext` (src/native.ts lines 294-308) on raw input:
`msg.author.username` raises a `TypeError` when `author` is `undefined`. -/
def getChatContextRawBody (cache : Option (List RawCachedMessage)) (contextLength : ℕ) :
    Except JsError (List RawContextMessage) :=
  let messages := cache.getD []
  let contextMessages := sliceLast messages contextLength
  contextMessages.mapM fun msg =>
    match msg.author with
    | none =>
        Except.error
          (JsError.typeError "Cannot read properties of undefined (reading 'username')")
    | some author =>
        Except.ok
          { content := msg.content
            author := { username := author.username, bot := author.bot }
            role := "user" }

/-- `getChatContext` on raw input: the `catch` (src/native.ts lines 309-312)
returns `[]` on any exception. -/
def getChatContextRaw (cache : Option (List RawCachedMessage)) (contextLength : ℕ) :
    List RawContextMessage :=
  match getChatContextRawBody cache contextLength with
  | .ok msgs => msgs
  | .error _ => []

/-! ### Helper lemmas -/

/-- The character-count fold of `estimateTokens` computes the list sum. -/
theorem foldl_content_length (l : List Message) (a : ℕ) :
    l.foldl (fun acc message => acc + message.content.length) a =
      a + (l.map fun message => message.content.length).sum := by
  induction l generalizing a with
  | nil => simp
  | cons x xs ih => simp [ih, Nat.add_assoc]

/-- `Math.ceil(n / 4)` on a natural count is `(n + 3) / 4`. -/
theorem ceil_natCast_div_four (n : ℕ) : ⌈(n : ℚ) / 4⌉₊ = (n + 3) / 4 := by
  apply le_antisymm
  · rw [Nat.ceil_le, div_le_iff₀ (by norm_num : (0 : ℚ) < 4)]
    have h : n ≤ (n + 3) / 4 * 4 := by omega
    exact_mod_cast h
  · rcases Nat.eq_zero_or_pos ((n + 3) / 4) with h | h
    · omega
    · have hlt : ((n + 3) / 4 - 1 : ℕ) < ⌈(n : ℚ) / 4⌉₊ := by
        rw [Nat.lt_ceil, lt_div_iff₀ (by norm_num : (0 : ℚ) < 4)]
        have h2 : ((n + 3) / 4 - 1) * 4 < n := by omega
        exact_mod_cast h2
      omega

/-- The request the flow sends once both guards pass. -/
theorem generateAIResponse_sentRequest (s : Settings) (cache : Option (List CachedMessage))
    (resp : HttpResponse) (h1 : ¬ s.apiKey = "")
    (h2 : ¬ getChatContext cache s.contextLength = []) :
    (generateAIResponse s cache resp).sentRequest =
      some (buildRequestBody s.model (getChatContext cache s.contextLength)
        s.systemInstructions) := by
  have h2l : ¬ (getChatContext cache s.contextLength).length = 0 := by
    simpa [List.length_eq_zero] using h2
  have hreq : ∀ r : HttpResponse,
      (generateResponse s.apiKey s.model (getChatContext cache s.contextLength)
        s.systemInstructions r).request =
        buildRequestBody s.model (getChatContext cache s.contextLength) s.systemInstructions := by
    intro r
    unfold generateResponse
    rcases hok : r.ok with _ | _ <;> rcases hj : r.json with _ | _ <;> simp [hok, hj]
  rw [generateAIResponse, if_neg h1, if_neg h2l]
  rcases hout : (generateResponse s.apiKey s.model (getChatContext cache s.contextLength)
      s.systemInstructions resp).outcome with e | r
  · simp [hout, ← hreq resp]
  · rcases hch : r.choices with _ | ⟨c, cs⟩ <;> simp [hout, hch, ← hreq resp]

/-- `generateResponse` on a non-success status: the thrown error carries the
status and body text, and the catch block logs it unconditionally. -/
theorem generateResponse_not_ok (apiKey model : String) (messages : List Message)
    (systemPrompt : String) (resp : HttpResponse) (h : resp.ok = false) :
    generateResponse apiKey model messages systemPrompt resp =
      { request := buildRequestBody model messages systemPrompt
        outcome := .error (.apiError resp.status resp.bodyText)
        logs := ["Error in generateResponse: " ++
          errorMessage (.apiError resp.status resp.bodyText)] } := by
  unfold generateResponse
  simp [h]

/-- `generateResponse` on a success status with parseable JSON returns the
parsed response and logs nothing. -/
theorem generateResponse_ok (apiKey model : String) (messages : List Message)
    (systemPrompt : String) (resp : HttpResponse) (r : OpenRouterResponse)
    (h : resp.ok = true) (hj : resp.json = some r) :
    generateResponse apiKey model messages systemPrompt resp =
      { request := buildRequestBody model messages systemPrompt
        outcome := .ok r
        logs := [] } := by
  unfold generateResponse
  simp [h, hj]

/-! ### The claims -/

/-- Claim C1, counterexample: the "if and only if" direction fails — with an
empty instruction string and an input list whose first message itself carries
role `"system"`, the built body has a role-`"system"` message at index 0 even
though the instruction is empty. -/
theorem claim1_counterexample :
    ¬ ((Option.map BodyMessage.role
        (buildRequestBody "m" [⟨"pretend", ⟨"eve", none⟩, "system"⟩] "").messages.head? =
          some "system") ↔ ("" : String) ≠ "") := by
  decide

/-- Claim C1 (amended): for every API key, model, message list and system
instruction, the body built by `generateResponse` is the inserted system
message (when the instruction is non-empty) followed by every input message
in order, none added, dropped or reordered; when the instruction is empty the
body is exactly the input list (so no *inserted* system message appears, though
an input message may itself carry role `"system"`); the body carries
temperature 0.7, max_tokens 1024 and stream false. -/
theorem claim1_request_shape (apiKey model : String) (messages : List Message)
    (systemPrompt : String) :
    (systemPrompt ≠ "" →
      (buildRequestBody model messages systemPrompt).messages =
        systemMessage systemPrompt :: messages.map Message.toBody)
    ∧ (systemPrompt = "" →
      (buildRequestBody model messages systemPrompt).messages = messages.map Message.toBody)
    ∧ (buildRequestBody model messages systemPrompt).temperature = 7 / 10
    ∧ (buildRequestBody model messages systemPrompt).max_tokens = 1024
    ∧ (buildRequestBody model messages systemPrompt).stream = false := by
  refine ⟨fun h => ?_, fun h => ?_, ?_, rfl, rfl⟩
  · simp [buildRequestBody, buildAllMessages, h]
  · simp [buildRequestBody, buildAllMessages, h]
  · show (0.7 : ℚ) = 7 / 10
    norm_num

/-- Claim C1, witness: the amended statement evaluated with one conversation
message, once with instruction `"be nice"` and once with the empty
instruction. -/
theorem claim1_witness :
    (buildRequestBody "m" [⟨"hi", ⟨"alice", some false⟩, "user"⟩] "be nice").messages =
      systemMessage "be nice" ::
        [Message.toBody ⟨"hi", ⟨"alice", some false⟩, "user"⟩]
    ∧ (buildRequestBody "m" [⟨"hi", ⟨"alice", some false⟩, "user"⟩] "").messages =
      [Message.toBody ⟨"hi", ⟨"alice", some false⟩, "user"⟩] := by
  constructor
  · have h := (claim1_request_shape "k" "m" [⟨"hi", ⟨"alice", some false⟩, "user"⟩] "be nice").1
      (by decide)
    simpa using h
  · have h := (claim1_request_shape "k" "m" [⟨"hi", ⟨"alice", some false⟩, "user"⟩] "").2.1 rfl
    simpa using h

/-- Claim C3: for every sequence of messages, `estimateTokens` returns
`ceil(sum of content lengths / 4)` — a natural number, hence non-negative —
and `0` on the empty sequence. -/
theorem claim3_estimateTokens_ceil (messages : List Message) :
    estimateTokens messages =
      ⌈(((messages.map fun message => message.content.length).sum : ℕ) : ℚ) / 4⌉₊
    ∧ estimateTokens [] = 0 := by
  constructor
  · rw [estimateTokens, ceil_natCast_div_four]
    simp [foldl_content_length]
  · rfl

/-- Claim C5: for every cache of `M` messages and every configured (positive)
context length `L`, `getChatContext` returns exactly `min L M` entries — the
most recent ones, i.e. the final segment of the cache with its oldest-to-newest
order preserved. -/
theorem claim5_context_window (cache : Option (List CachedMessage)) (L : ℕ) (hL : 0 < L) :
    (getChatContext cache L).length = min L (cache.getD []).length
    ∧ getChatContext cache L =
        ((cache.getD []).drop ((cache.getD []).length - L)).map
          (fun msg => ⟨msg.content, ⟨msg.author.username, msg.author.bot⟩, "user"⟩) := by
  have hslice : sliceLast (cache.getD []) L =
      (cache.getD []).drop ((cache.getD []).length - L) := by
    rw [sliceLast, if_neg (Nat.pos_iff_ne_zero.mp hL)]
  constructor
  · rw [getChatContext]
    simp only [hslice, List.length_map, List.length_drop]
    omega
  · rw [getChatContext]
    simp [hslice]

/-- Claim C5, witness: with context length 20 and a five-message cache, the
collector returns exactly five entries. -/
theorem claim5_witness :
    (getChatContext
      (some [⟨"m1", ⟨"a", none⟩⟩, ⟨"m2", ⟨"a", none⟩⟩, ⟨"m3", ⟨"b", some false⟩⟩,
        ⟨"m4", ⟨"b", none⟩⟩, ⟨"m5", ⟨"c", some true⟩⟩]) 20).length = 5 := by
  have h := (claim5_context_window
    (some [⟨"m1", ⟨"a", none⟩⟩, ⟨"m2", ⟨"a", none⟩⟩, ⟨"m3", ⟨"b", some false⟩⟩,
      ⟨"m4", ⟨"b", none⟩⟩, ⟨"m5", ⟨"c", some true⟩⟩]) 20 (by decide)).1
  simpa using h

/-- Claim C6: every message returned by the collector has role `"user"`,
regardless of the original message's authorship. -/
theorem claim6_role_user (cache : Option (List CachedMessage)) (L : ℕ) (m : Message)
    (hm : m ∈ getChatContext cache L) : m.role = "user" := by
  rw [getChatContext] at hm
  rcases List.mem_map.mp hm with ⟨msg, _, hmsg⟩
  rw [← hmsg]

/-- Claim C6, witness: a context built from a bot-authored cached message is
tagged role `"user"`. -/
theorem claim6_witness :
    (Message.mk "beep boop" ⟨"OtherBot", some true⟩ "user").role = "user" :=
  claim6_role_user (some [⟨"beep boop", ⟨"OtherBot", some true⟩⟩]) 20
    ⟨"beep boop", ⟨"OtherBot", some true⟩, "user"⟩ (by decide)

/-- Claim C2, counterexample: with the logging setting disabled and an HTTP
401 response, the raw status and body are still written to the console (by
`generateResponse`'s own unconditional `console.error` at src/native.ts line
80), so "logged only if the logging setting is enabled" fails. -/
theorem claim2_counterexample :
    (Settings.mk "k" "m" 20 "" "both" "ephemeral" false false false).logErrors = false
    ∧ ("Error in generateResponse: OpenRouter API error (401): Unauthorized") ∈
        (generateAIResponse (Settings.mk "k" "m" 20 "" "both" "ephemeral" false false false)
          (some [⟨"hello", ⟨"alice", some false⟩⟩]) ⟨401, "Unauthorized", none⟩).logs := by
  constructor
  · rfl
  · decide

/-- Claim C2 (amended): for every response with a non-success HTTP status,
`generateResponse` fails with an error carrying the status code and the
response body text, the flow surfaces the generic failure toast and returns
no generated text; the raw status and body are always logged once by
`generateResponse`'s own catch block, and the flow writes one further log
exactly when the logging setting is enabled. -/
theorem claim2_upstream_error (s : Settings) (cache : Option (List CachedMessage))
    (resp : HttpResponse) (h1 : s.apiKey ≠ "")
    (h2 : getChatContext cache s.contextLength ≠ []) (h3 : resp.ok = false) :
    (generateResponse s.apiKey s.model (getChatContext cache s.contextLength)
        s.systemInstructions resp).outcome =
      .error (.apiError resp.status resp.bodyText)
    ∧ (generateAIResponse s cache resp).result = none
    ∧ Toast.mk "Error generating AI response" .failure ∈ (generateAIResponse s cache resp).toasts
    ∧ (generateAIResponse s cache resp).logs =
        ["Error in generateResponse: " ++
            errorMessage (.apiError resp.status resp.bodyText)] ++
          (if s.logErrors then
            ["Error generating AI response: " ++
              errorMessage (.apiError resp.status resp.bodyText)]
          else []) := by
  have h2l : ¬ (getChatContext cache s.contextLength).length = 0 := by
    simpa [List.length_eq_zero] using h2
  have hgen := generateResponse_not_ok s.apiKey s.model
    (getChatContext cache s.contextLength) s.systemInstructions resp h3
  refine ⟨by rw [hgen], ?_, ?_, ?_⟩ <;>
    rw [generateAIResponse, if_neg h1, if_neg h2l] <;> simp [hgen]

/-- Claim C2, witness: the amended statement at an HTTP 401 response with a
one-message cache and logging enabled. -/
theorem claim2_witness :
    (generateAIResponse (Settings.mk "k" "m" 20 "" "both" "ephemeral" false false true)
        (some [⟨"hello", ⟨"alice", some false⟩⟩]) ⟨401, "Unauthorized", none⟩).result = none
    ∧ (generateAIResponse (Settings.mk "k" "m" 20 "" "both" "ephemeral" false false true)
        (some [⟨"hello", ⟨"alice", some false⟩⟩]) ⟨401, "Unauthorized", none⟩).logs =
      ["Error in generateResponse: " ++
          errorMessage (.apiError 401 "Unauthorized")] ++
        (if (Settings.mk "k" "m" 20 "" "both" "ephemeral" false false true).logErrors then
          ["Error generating AI response: " ++ errorMessage (.apiError 401 "Unauthorized")]
        else []) := by
  have h := claim2_upstream_error
    (Settings.mk "k" "m" 20 "" "both" "ephemeral" false false true)
    (some [⟨"hello", ⟨"alice", some false⟩⟩]) ⟨401, "Unauthorized", none⟩
    (by decide) (by decide) (by decide)
  exact ⟨h.2.1, h.2.2.2⟩

/-- Claim C7: the flow never sends an empty message list — with no API key
configured, or with an empty collected context, it shows a failure toast and
returns `null` without issuing a request, and any request it does send has a
non-empty messages array. -/
theorem claim7_nonempty_invariant (s : Settings) (cache : Option (List CachedMessage))
    (resp : HttpResponse) :
    (s.apiKey = "" →
      (generateAIResponse s cache resp).sentRequest = none
      ∧ (generateAIResponse s cache resp).result = none
      ∧ Toast.mk "Please set your OpenRouter API key in the plugin settings" .failure
          ∈ (generateAIResponse s cache resp).toasts)
    ∧ (s.apiKey ≠ "" → getChatContext cache s.contextLength = [] →
      (generateAIResponse s cache resp).sentRequest = none
      ∧ (generateAIResponse s cache resp).result = none
      ∧ Toast.mk "No messages found to generate context" .failure
          ∈ (generateAIResponse s cache resp).toasts)
    ∧ (∀ b : RequestBody, (generateAIResponse s cache resp).sentRequest = some b →
        b.messages ≠ []) := by
  refine ⟨fun h => ?_, fun h1 h2 => ?_, fun b hb => ?_⟩
  · rw [generateAIResponse, if_pos h]
    simp
  · have h2l : (getChatContext cache s.contextLength).length = 0 := by simp [h2]
    rw [generateAIResponse, if_neg h1, if_pos h2l]
    simp
  · by_cases h1 : s.apiKey = ""
    · rw [generateAIResponse, if_pos h1] at hb
      simp at hb
    · by_cases h2 : getChatContext cache s.contextLength = []
      · have h2l : (getChatContext cache s.contextLength).length = 0 := by simp [h2]
        rw [generateAIResponse, if_neg h1, if_pos h2l] at hb
        simp at hb
      · rw [generateAIResponse_sentRequest s cache resp h1 h2] at hb
        have hbe := (Option.some.inj hb).symm
        rw [hbe]
        simp [buildRequestBody, buildAllMessages, h2]

/-- Claim C7, witness: the three parts at concrete inputs — missing key, empty
cache, and a sent request whose messages array is the one-message context. -/
theorem claim7_witness :
    (generateAIResponse (Settings.mk "" "m" 20 "" "both" "ephemeral" false false true)
        none ⟨401, "x", none⟩).sentRequest = none
    ∧ (generateAIResponse (Settings.mk "k" "m" 20 "" "both" "ephemeral" false false true)
        none ⟨401, "x", none⟩).sentRequest = none
    ∧ (buildRequestBody "m"
        (getChatContext (some [⟨"hello", ⟨"alice", some false⟩⟩]) 20) "sys").messages ≠ [] := by
  refine ⟨?_, ?_, ?_⟩
  · exact ((claim7_nonempty_invariant
      (Settings.mk "" "m" 20 "" "both" "ephemeral" false false true)
      none ⟨401, "x", none⟩).1 rfl).1
  · exact ((claim7_nonempty_invariant
      (Settings.mk "k" "m" 20 "" "both" "ephemeral" false false true)
      none ⟨401, "x", none⟩).2.1 (by decide) rfl).1
  · exact (claim7_nonempty_invariant
      (Settings.mk "k" "m" 20 "sys" "both" "ephemeral" false false true)
      (some [⟨"hello", ⟨"alice", some false⟩⟩]) ⟨401, "x", none⟩).2.2
      (buildRequestBody "m"
        (getChatContext (some [⟨"hello", ⟨"alice", some false⟩⟩]) 20) "sys") rfl

/-- Claim C8: on a well-formed response, the flow returns
`choices[0].message.content` when `choices` is non-empty; when `choices` is
empty it shows the failure toast and returns `null`, and the command handler
delivers no text to any output. -/
theorem claim8_choices (s : Settings) (isGuild : Bool) (cache : Option (List CachedMessage))
    (resp : HttpResponse) (r : OpenRouterResponse)
    (h1 : s.apiKey ≠ "") (h2 : getChatContext cache s.contextLength ≠ [])
    (h3 : resp.ok = true) (h4 : resp.json = some r) :
    (r.choices = [] →
      (generateAIResponse s cache resp).result = none
      ∧ Toast.mk "Failed to generate response" .failure
          ∈ (generateAIResponse s cache resp).toasts
      ∧ (scopeBlocked s isGuild = false →
          (execute s isGuild cache resp).botMessages = []
          ∧ (execute s isGuild cache resp).insertedText = []))
    ∧ (∀ c cs, r.choices = c :: cs →
        (generateAIResponse s cache resp).result = some (c.message.content, r)) := by
  have h2l : ¬ (getChatContext cache s.contextLength).length = 0 := by
    simpa [List.length_eq_zero] using h2
  have hgen := generateResponse_ok s.apiKey s.model
    (getChatContext cache s.contextLength) s.systemInstructions resp r h3 h4
  constructor
  · intro hch
    have hres : (generateAIResponse s cache resp).result = none := by
      rw [generateAIResponse, if_neg h1, if_neg h2l]
      simp [hgen, hch]
    refine ⟨hres, ?_, fun hsb => ?_⟩
    · rw [generateAIResponse, if_neg h1, if_neg h2l]
      simp [hgen, hch]
    · rw [execute, if_neg (by simp [hsb])]
      simp [hres]
  · intro c cs hch
    rw [generateAIResponse, if_neg h1, if_neg h2l]
    simp [hgen, hch]

/-- Claim C8, witness: both branches at concrete inputs — a 200 response with
empty `choices` yields `null` and no output, and one with a single choice
yields its message content. -/
theorem claim8_witness :
    (generateAIResponse (Settings.mk "k" "m" 20 "" "both" "ephemeral" false false true)
        (some [⟨"hello", ⟨"alice", some false⟩⟩])
        ⟨200, "", some ⟨"id1", [], "m", ⟨1, 2, 3⟩⟩⟩).result = none
    ∧ (generateAIResponse (Settings.mk "k" "m" 20 "" "both" "ephemeral" false false true)
        (some [⟨"hello", ⟨"alice", some false⟩⟩])
        ⟨200, "", some ⟨"id1", [⟨⟨"hi there", "assistant"⟩, "stop", 0⟩], "m", ⟨1, 2, 3⟩⟩⟩).result =
      some ("hi there", ⟨"id1", [⟨⟨"hi there", "assistant"⟩, "stop", 0⟩], "m", ⟨1, 2, 3⟩⟩) := by
  constructor
  · exact ((claim8_choices (Settings.mk "k" "m" 20 "" "both" "ephemeral" false false true)
      true (some [⟨"hello", ⟨"alice", some false⟩⟩])
      ⟨200, "", some ⟨"id1", [], "m", ⟨1, 2, 3⟩⟩⟩ ⟨"id1", [], "m", ⟨1, 2, 3⟩⟩
      (by decide) (by decide) (by decide) rfl).1 rfl).1
  · exact (claim8_choices (Settings.mk "k" "m" 20 "" "both" "ephemeral" false false true)
      true (some [⟨"hello", ⟨"alice", some false⟩⟩])
      ⟨200, "", some ⟨"id1", [⟨⟨"hi there", "assistant"⟩, "stop", 0⟩], "m", ⟨1, 2, 3⟩⟩⟩
      ⟨"id1", [⟨⟨"hi there", "assistant"⟩, "stop", 0⟩], "m", ⟨1, 2, 3⟩⟩
      (by decide) (by decide) (by decide) rfl).2
      ⟨⟨"hi there", "assistant"⟩, "stop", 0⟩ [] rfl

/-- Claim C9: when the configured scope is `"dms"` and the channel is a guild
channel — or the scope is `"channels"` and the channel is not a guild
channel — the command handler sends only the local notice and never runs the
flow (so the collector is not invoked and no network call is made), and the
popover button is not rendered. -/
theorem claim9_scope_gate (s : Settings) (isGuild : Bool)
    (cache : Option (List CachedMessage)) (resp : HttpResponse)
    (h : (isGuild = true ∧ s.chatScope = "dms")
      ∨ (isGuild = false ∧ s.chatScope = "channels")) :
    (execute s isGuild cache resp).botMessages =
      ["AI responses are not enabled for this type of channel. Check your plugin settings."]
    ∧ (execute s isGuild cache resp).flowRun = none
    ∧ (execute s isGuild cache resp).insertedText = []
    ∧ renderMessagePopoverButton s isGuild = false := by
  have hb : scopeBlocked s isGuild = true := by
    rcases h with ⟨hg, hs⟩ | ⟨hg, hs⟩ <;> simp [scopeBlocked, hg, hs]
  refine ⟨?_, ?_, ?_, ?_⟩ <;> simp [execute, renderMessagePopoverButton, hb]

/-- Claim C9, witness: scope `"dms"` in a guild channel produces exactly the
local notice and no flow run, and no popover button. -/
theorem claim9_witness :
    (execute (Settings.mk "k" "m" 20 "" "dms" "ephemeral" false false true)
        true (some [⟨"hello", ⟨"alice", some false⟩⟩]) ⟨200, "", none⟩).flowRun = none
    ∧ renderMessagePopoverButton
        (Settings.mk "k" "m" 20 "" "dms" "ephemeral" false false true) true = false := by
  have h := claim9_scope_gate (Settings.mk "k" "m" 20 "" "dms" "ephemeral" false false true)
    true (some [⟨"hello", ⟨"alice", some false⟩⟩]) ⟨200, "", none⟩ (Or.inl ⟨rfl, rfl⟩)
  exact ⟨h.2.1, h.2.2.2⟩

/-- Claim C10: `estimateTokens`, `formatDebugInfo` and `getChatContext` are
total on dynamically-typed input — whenever the function body raises, the
catch returns the fallback (`0`, the fixed error string, `[]` respectively),
and whenever it does not raise, the body's value is returned. -/
theorem claim10_totality (rms : List RawMessage) (rresp : Option RawResponseData)
    (rcache : Option (List RawCachedMessage)) (L : ℕ) :
    ((∃ e, estimateTokensRawBody rms = .error e) → estimateTokensRaw rms = 0)
    ∧ ((∃ e, formatDebugInfoRawBody rresp = .error e) →
        formatDebugInfoRaw rresp = "Error generating debug info")
    ∧ ((∃ e, getChatContextRawBody rcache L = .error e) → getChatContextRaw rcache L = [])
    ∧ (∀ n, estimateTokensRawBody rms = .ok n → estimateTokensRaw rms = n)
    ∧ (∀ str, formatDebugInfoRawBody rresp = .ok str → formatDebugInfoRaw rresp = str)
    ∧ (∀ l, getChatContextRawBody rcache L = .ok l → getChatContextRaw rcache L = l) := by
  refine ⟨?_, ?_, ?_, ?_, ?_, ?_⟩
  · rintro ⟨e, he⟩
    simp [estimateTokensRaw, he]
  · rintro ⟨e, he⟩
    simp [formatDebugInfoRaw, he]
  · rintro ⟨e, he⟩
    simp [getChatContextRaw, he]
  · intro n hn
    simp [estimateTokensRaw, hn]
  · intro str hs
    simp [formatDebugInfoRaw, hs]
  · intro l hl
    simp [getChatContextRaw, hl]

/-- Claim C10, witness: concrete inputs whose missing fields raise — a message
with `undefined` content, an `undefined` response, and a cached message with
an `undefined` author — each yield the documented fallback. -/
theorem claim10_witness :
    estimateTokensRaw [⟨none, none, none⟩] = 0
    ∧ formatDebugInfoRaw none = "Error generating debug info"
    ∧ getChatContextRaw (some [⟨some "hi", none⟩]) 20 = [] := by
  refine ⟨?_, ?_, ?_⟩
  · exact (claim10_totality [⟨none, none, none⟩] none (some [⟨some "hi", none⟩]) 20).1
      ⟨.typeError "Cannot read properties of undefined (reading 'length')", by decide⟩
  · exact (claim10_totality [⟨none, none, none⟩] none (some [⟨some "hi", none⟩]) 20).2.1
      ⟨.typeError "Cannot destructure property of undefined", by decide⟩
  · exact (claim10_totality [⟨none, none, none⟩] none (some [⟨some "hi", none⟩]) 20).2.2.1
      ⟨.typeError "Cannot read properties of undefined (reading 'username')", by decide⟩

end GPTVencord
